import Mathlib

/-!
Shallow embedding of the ETM (Event Task Matrix) driver `src/esp-hal/src/etm.rs`.

The driver programs a fixed matrix of 50 hardware channels.  `EtmChannel::setup`
acquires a `GenericPeripheralGuard`, writes `event.id()` and `task.id()` into the
channel's `evt_id` / `task_id` register fields via read-modify-write, and enables
the channel by a one-bit write to the bank's set strobe register
(`ch_ena_ad0_set` for indices below 32, `ch_ena_ad1_set` otherwise).
`disable_channel` writes the corresponding clear strobe; `Drop` for
`EtmConfiguredChannel` runs `disable_channel` and then (by Rust field-drop order)
releases the guard.

The register block itself lives in the peripheral access crate, outside this
repository, so its semantics (read-modify-write of an id field, one-directional
set/clear strobe registers driving a readable enable bitmap, the reference-counted
peripheral guard) are modelled from the spec where marked.
-/

namespace Etm

/-- One register-level effect performed by the driver, in program order:
a read-modify-write of a channel's event-id field (recording the raw value handed
to the field writer), the same for the task-id field, a write of a raw 32-bit
value to a bank's set or clear strobe register (bank 0 = `ch_ena_ad0`,
bank 1 = `ch_ena_ad1`), and acquisition / release of the peripheral-usage token
(`GenericPeripheralGuard`). -/
inductive Effect where
  | writeEvtId (ch val : Nat)
  | writeTaskId (ch val : Nat)
  | writeEnaSet (bank val : Nat)
  | writeEnaClr (bank val : Nat)
  | acquireToken
  | releaseToken
deriving DecidableEq, Repr

/-- Observable hardware state: the 32-bit `evt_id` and `task_id` register of each
channel, the two enable bitmaps (low bank = channels 0-31, high bank = channels
32 and up), and the peripheral-usage token reference count. -/
structure EtmState where
  evt_id : Nat → Nat
  task_id : Nat → Nat
  ena0 : Nat
  ena1 : Nat
  tokens : Nat

/-- Modelled from the spec: the event-id / task-id register field is a small
unsigned field (8 bits, at offset 0) of its 32-bit register; the field writer
masks the value to the field width and a `modify` keeps every other bit of the
register (read-modify-write). -/
def setField8 (reg v : Nat) : Nat := 256 * (reg / 256) + v % 256

/-- Modelled from the spec: writing `v` to a set strobe register turns on exactly
the bits that are 1 in `v`; bits written 0 are unaffected. -/
def strobeSet (reg v : Nat) : Nat := reg ||| v

/-- Modelled from the spec: writing `v` to a clear strobe register turns off
exactly the bits that are 1 in `v`; bits written 0 are unaffected. -/
def strobeClear (reg v : Nat) : Nat := reg ^^^ (reg &&& v)

/-- Apply one register-level effect to the hardware state. -/
def applyEffect (s : EtmState) : Effect → EtmState
  | .writeEvtId c v =>
      { s with evt_id := Function.update s.evt_id c (setField8 (s.evt_id c) v) }
  | .writeTaskId c v =>
      { s with task_id := Function.update s.task_id c (setField8 (s.task_id c) v) }
  | .writeEnaSet b v =>
      if b = 0 then { s with ena0 := strobeSet s.ena0 v }
      else { s with ena1 := strobeSet s.ena1 v }
  | .writeEnaClr b v =>
      if b = 0 then { s with ena0 := strobeClear s.ena0 v }
      else { s with ena1 := strobeClear s.ena1 v }
  | .acquireToken => { s with tokens := s.tokens + 1 }
  | .releaseToken => { s with tokens := s.tokens - 1 }

/-- Apply a sequence of effects in order. -/
def applyEffects (s : EtmState) (es : List Effect) : EtmState :=
  es.foldl applyEffect s

/-- A value implementing the `EtmEvent` capability: `id` is what `id()` returns
(a `u8`); `payload` stands for whatever else a concrete implementor carries,
which `setup` never reads. -/
structure EtmEvent where
  id : Nat
  payload : Nat

/-- A value implementing the `EtmTask` capability, likewise. -/
structure EtmTask where
  id : Nat
  payload : Nat

/-- Effect trace of `EtmChannel::<C>::setup(event, task)`, transcribed from the
source in program order: `GenericPeripheralGuard::new()` first, then the
`evt_id` modify, then the `task_id` modify, then the one-bit set strobe write
(`ch_ena_ad0_set` with bit `C` when `C < 32`, otherwise `ch_ena_ad1_set` with
bit `C - 32`). -/
def setupEffects (C : Nat) (event : EtmEvent) (task : EtmTask) : List Effect :=
  [Effect.acquireToken,
   Effect.writeEvtId C event.id,
   Effect.writeTaskId C task.id,
   if C < 32 then Effect.writeEnaSet 0 (1 <<< C)
   else Effect.writeEnaSet 1 (1 <<< (C - 32))]

/-- Hardware state after `EtmChannel::<C>::setup(event, task)` runs from `s`. -/
def setup (C : Nat) (event : EtmEvent) (task : EtmTask) (s : EtmState) : EtmState :=
  applyEffects s (setupEffects C event task)

/-- Effect trace of the free function `disable_channel(channel)`: a single clear
strobe write, bank 0 bit `channel` when `channel < 32`, otherwise bank 1 bit
`channel - 32`. -/
def disable_channel (channel : Nat) : List Effect :=
  if channel < 32 then [Effect.writeEnaClr 0 (1 <<< channel)]
  else [Effect.writeEnaClr 1 (1 <<< (channel - 32))]

/-- Effect trace of `Drop for EtmConfiguredChannel<C>`: the drop body runs
`disable_channel(C)`, after which Rust drops the fields in declaration order,
releasing the `_guard` token last. -/
def dropEffects (C : Nat) : List Effect :=
  disable_channel C ++ [Effect.releaseToken]

/-- Bank selected for a channel index: 0 (`ch_ena_ad0`) below 32, else 1. -/
def chBank (i : Nat) : Nat := if i < 32 then 0 else 1

/-- Read the enable bitmap of a bank. -/
def enaBank (s : EtmState) (b : Nat) : Nat := if b = 0 then s.ena0 else s.ena1

/-- Channel indices of the `Etm` struct, transcribed from the `create_etm!`
invocation: one `channel<n>` field per listed literal. -/
def etmChannels : List Nat :=
  [0, 1, 2, 3, 4, 5, 6, 7, 8, 9, 10, 11, 12, 13, 14, 15, 16, 17, 18, 19, 20, 21,
   22, 23, 24, 25, 26, 27, 28, 29, 30, 31, 32, 33, 34, 35, 36, 37, 38, 39, 40,
   41, 42, 43, 44, 45, 46, 47, 48, 49]

/-- The `Etm` aggregate: it owns the peripheral handle (erased here) and one
unconfigured channel per index listed in `create_etm!`. -/
structure EtmMatrix where
  channels : List Nat

/-- Model of `Etm::new`: constructs the struct, one channel field per index;
its body performs no register access and creates no guard. -/
def etmNew : EtmMatrix := ⟨etmChannels⟩

/-- Effect trace of `Etm::new`: the body only moves the peripheral handle and
builds the struct, so no register-level effect occurs. -/
def etmNewEffects : List Effect := []

/-- A convenient all-zero reset state for concrete scenarios. -/
def initState : EtmState :=
  { evt_id := fun _ => 0, task_id := fun _ => 0, ena0 := 0, ena1 := 0, tokens := 0 }

/-- Ownership state of the channel values: which of the 50 indices still have a
live unconfigured `EtmChannel` value, and which have a live
`EtmConfiguredChannel` guard. -/
structure OwnState where
  unconfigured : Finset (Fin 50)
  configured : Finset (Fin 50)
deriving DecidableEq

/-- An operation of the channel lifecycle API. -/
inductive Op where
  | configure (i : Fin 50)
  | release (i : Fin 50)

/-- Move semantics of the API: `setup` takes the `EtmChannel` value by value, so
configuring consumes it and creates the guard; dropping the guard consumes the
guard and never recreates a channel value. An operation whose input value does
not exist is impossible (`none`): nothing duplicates a value. -/
def applyOp (s : OwnState) : Op → Option OwnState
  | .configure i =>
      if i ∈ s.unconfigured then
        some ⟨s.unconfigured.erase i, insert i s.configured⟩
      else none
  | .release i =>
      if i ∈ s.configured then some ⟨s.unconfigured, s.configured.erase i⟩
      else none

/-- Run a sequence of lifecycle operations from a state. -/
def runOps (s : OwnState) : List Op → Option OwnState
  | [] => some s
  | op :: ops =>
      match applyOp s op with
      | some s1 => runOps s1 ops
      | none => none

/-- Ownership state right after `Etm::new`: every index has its unconfigured
channel value, no guard exists yet. -/
def initOwn : OwnState := ⟨Finset.univ, ∅⟩

end Etm

namespace Etm

theorem testBit_strobeSet (r v j : Nat) :
    (strobeSet r v).testBit j = (r.testBit j || v.testBit j) :=
  Nat.testBit_or r v j

theorem testBit_strobeClear (r v j : Nat) :
    (strobeClear r v).testBit j = (r.testBit j && !(v.testBit j)) := by
  unfold strobeClear
  rw [Nat.testBit_xor, Nat.testBit_and]
  cases r.testBit j <;> cases v.testBit j <;> rfl

theorem testBit_one_shiftLeft (b j : Nat) : ((1 <<< b) : Nat).testBit j = decide (b = j) := by
  rw [Nat.shiftLeft_eq, Nat.one_mul, Nat.testBit_two_pow]

theorem setField8_mod (r v : Nat) : setField8 r v % 256 = v % 256 := by
  unfold setField8
  omega

theorem testBit_setField8_high (r v j : Nat) (hj : 8 ≤ j) :
    (setField8 r v).testBit j = r.testBit j := by
  have hb : v % 256 < 2 ^ 8 := Nat.mod_lt _ (by norm_num)
  have h : setField8 r v = 2 ^ 8 * (r / 256) + v % 256 := rfl
  rw [h, Nat.testBit_mul_pow_two_add _ hb, if_neg (by omega)]
  have hr : r / 256 = r >>> 8 := (Nat.shiftRight_eq_div_pow r 8).symm
  rw [hr, Nat.testBit_shiftRight]
  congr 1
  omega

theorem setup_evt_id (C : Nat) (event : EtmEvent) (task : EtmTask) (s : EtmState) :
    (setup C event task s).evt_id =
      Function.update s.evt_id C (setField8 (s.evt_id C) event.id) := by
  by_cases h : C < 32 <;>
    simp [setup, applyEffects, setupEffects, applyEffect, h]

theorem setup_task_id (C : Nat) (event : EtmEvent) (task : EtmTask) (s : EtmState) :
    (setup C event task s).task_id =
      Function.update s.task_id C (setField8 (s.task_id C) task.id) := by
  by_cases h : C < 32 <;>
    simp [setup, applyEffects, setupEffects, applyEffect, h]

theorem setup_ena0_low (C : Nat) (event : EtmEvent) (task : EtmTask) (s : EtmState)
    (h : C < 32) : (setup C event task s).ena0 = strobeSet s.ena0 (1 <<< C) := by
  simp [setup, applyEffects, setupEffects, applyEffect, h]

theorem setup_ena1_low (C : Nat) (event : EtmEvent) (task : EtmTask) (s : EtmState)
    (h : C < 32) : (setup C event task s).ena1 = s.ena1 := by
  simp [setup, applyEffects, setupEffects, applyEffect, h]

theorem setup_ena0_high (C : Nat) (event : EtmEvent) (task : EtmTask) (s : EtmState)
    (h : ¬ C < 32) : (setup C event task s).ena0 = s.ena0 := by
  simp [setup, applyEffects, setupEffects, applyEffect, h]

theorem setup_ena1_high (C : Nat) (event : EtmEvent) (task : EtmTask) (s : EtmState)
    (h : ¬ C < 32) : (setup C event task s).ena1 = strobeSet s.ena1 (1 <<< (C - 32)) := by
  simp [setup, applyEffects, setupEffects, applyEffect, h]

theorem drop_state_low (C : Nat) (s : EtmState) (h : C < 32) :
    applyEffects s (dropEffects C) =
      { s with ena0 := strobeClear s.ena0 (1 <<< C), tokens := s.tokens - 1 } := by
  simp [dropEffects, disable_channel, applyEffects, applyEffect, h]

theorem drop_state_high (C : Nat) (s : EtmState) (h : ¬ C < 32) :
    applyEffects s (dropEffects C) =
      { s with ena1 := strobeClear s.ena1 (1 <<< (C - 32)), tokens := s.tokens - 1 } := by
  simp [dropEffects, disable_channel, applyEffects, applyEffect, h]

theorem applyOp_disjoint (s t : OwnState) (op : Op)
    (hs : Disjoint s.unconfigured s.configured) (h : applyOp s op = some t) :
    Disjoint t.unconfigured t.configured := by
  cases op with
  | configure i =>
      simp only [applyOp] at h
      split at h
      · cases h
        refine Finset.disjoint_insert_right.mpr ⟨Finset.not_mem_erase i _, ?_⟩
        exact Finset.disjoint_of_subset_left (Finset.erase_subset i _) hs
      · exact absurd h (by simp)
  | release i =>
      simp only [applyOp] at h
      split at h
      · cases h
        exact Finset.disjoint_of_subset_right (Finset.erase_subset i _) hs
      · exact absurd h (by simp)

theorem runOps_disjoint (ops : List Op) (s t : OwnState)
    (hs : Disjoint s.unconfigured s.configured) (h : runOps s ops = some t) :
    Disjoint t.unconfigured t.configured := by
  induction ops generalizing s with
  | nil =>
      unfold runOps at h
      cases h
      exact hs
  | cons op ops ih =>
      unfold runOps at h
      cases hap : applyOp s op with
      | none => rw [hap] at h; exact absurd h (by simp)
      | some s1 =>
          rw [hap] at h
          exact ih s1 (applyOp_disjoint s s1 op hs hap) h

/-- C1, as the claim states it, is false: in `EtmChannel::setup` the
peripheral-usage token (`GenericPeripheralGuard::new()`) is acquired before the
three register writes, not after the enable strobe. Concretely, for channel 0
with event id 5 and task id 9 the effect trace is not
event-write, task-write, enable-set, acquire. -/
theorem setup_order_counterexample :
    setupEffects 0 ⟨5, 0⟩ ⟨9, 0⟩ ≠
      [Effect.writeEvtId 0 5, Effect.writeTaskId 0 9,
       Effect.writeEnaSet 0 (1 <<< 0), Effect.acquireToken] := by
  decide

/-- C1 (amended): for every channel index C below 50, every Event and every
Task, `EtmChannel::setup` performs its effects in this order: first it acquires
the peripheral-usage token, then it writes `event.id()` into channel C's
event-id register field, then `task.id()` into channel C's task-id register
field, and last it sets channel C's enable bit by writing 1 to the set strobe
register of C's bank at the bit offset for C. -/
theorem setup_effect_order (C : Nat) (hC : C < 50) (event : EtmEvent) (task : EtmTask) :
    setupEffects C event task =
      [Effect.acquireToken, Effect.writeEvtId C event.id, Effect.writeTaskId C task.id,
       Effect.writeEnaSet (chBank C) (1 <<< (C % 32))] := by
  unfold setupEffects chBank
  by_cases h : C < 32
  · simp [h, Nat.mod_eq_of_lt h]
  · have h32 : C % 32 = C - 32 := by omega
    simp [h, h32]

theorem setup_effect_order_witness :
    (0 : Nat) < 50 ∧
    setupEffects 0 ⟨5, 0⟩ ⟨9, 0⟩ =
      [Effect.acquireToken, Effect.writeEvtId 0 5, Effect.writeTaskId 0 9,
       Effect.writeEnaSet (chBank 0) (1 <<< (0 % 32))] :=
  ⟨by decide, setup_effect_order 0 (by decide) ⟨5, 0⟩ ⟨9, 0⟩⟩

/-- C2: for every channel index i below 50, configuring channel i sets bit
`i % 32` of the set strobe register of bank(i) — bank 0 for i below 32, bank 1
otherwise — so the enable bitmap of bank(i) shows bit `i % 32` = 1 right after
configuration; and `disable_channel(i)` writes 1 to bit `i % 32` of the clear
strobe register of the same bank. -/
theorem configure_sets_enable_bit (i : Nat) (hi : i < 50) (event : EtmEvent)
    (task : EtmTask) (s : EtmState) :
    (enaBank (setup i event task s) (chBank i)).testBit (i % 32) = true ∧
    disable_channel i = [Effect.writeEnaClr (chBank i) (1 <<< (i % 32))] := by
  by_cases h : i < 32
  · constructor
    · rw [show chBank i = 0 by simp [chBank, h]]
      rw [show enaBank (setup i event task s) 0 = (setup i event task s).ena0 from rfl]
      rw [setup_ena0_low i event task s h, Nat.mod_eq_of_lt h, testBit_strobeSet,
        testBit_one_shiftLeft]
      simp
    · simp [disable_channel, chBank, h, Nat.mod_eq_of_lt h]
  · have h32 : i % 32 = i - 32 := by omega
    constructor
    · rw [show chBank i = 1 by simp [chBank, h]]
      rw [show enaBank (setup i event task s) 1 = (setup i event task s).ena1 from rfl]
      rw [setup_ena1_high i event task s h, h32, testBit_strobeSet, testBit_one_shiftLeft]
      simp
    · simp [disable_channel, chBank, h, h32]

theorem configure_sets_enable_bit_witness :
    (33 : Nat) < 50 ∧
    (enaBank (setup 33 ⟨5, 0⟩ ⟨9, 0⟩ initState) (chBank 33)).testBit (33 % 32) = true ∧
    disable_channel 33 = [Effect.writeEnaClr (chBank 33) (1 <<< (33 % 32))] :=
  ⟨by decide, (configure_sets_enable_bit 33 (by decide) ⟨5, 0⟩ ⟨9, 0⟩ initState).1,
   (configure_sets_enable_bit 33 (by decide) ⟨5, 0⟩ ⟨9, 0⟩ initState).2⟩

/-- C4: for every channel index C, every Event and every Task, `setup` writes
exactly `event.id()` and `task.id()`, masked to the 8-bit field width, into
channel C's event-id and task-id register fields, and leaves the event-id and
task-id registers of every other channel index untouched. -/
theorem setup_writes_ids (C : Nat) (event : EtmEvent) (task : EtmTask) (s : EtmState) :
    (setup C event task s).evt_id C % 256 = event.id % 256 ∧
    (setup C event task s).task_id C % 256 = task.id % 256 ∧
    ∀ i, i ≠ C →
      (setup C event task s).evt_id i = s.evt_id i ∧
      (setup C event task s).task_id i = s.task_id i := by
  refine ⟨?_, ?_, ?_⟩
  · rw [setup_evt_id, Function.update_same, setField8_mod]
  · rw [setup_task_id, Function.update_same, setField8_mod]
  · intro i hi
    constructor
    · rw [setup_evt_id, Function.update_noteq hi]
    · rw [setup_task_id, Function.update_noteq hi]

theorem setup_writes_ids_witness :
    (setup 0 ⟨5, 0⟩ ⟨9, 0⟩ initState).evt_id 0 % 256 = 5 % 256 ∧
    (1 : Nat) ≠ 0 ∧
    (setup 0 ⟨5, 0⟩ ⟨9, 0⟩ initState).evt_id 1 = initState.evt_id 1 :=
  ⟨(setup_writes_ids 0 ⟨5, 0⟩ ⟨9, 0⟩ initState).1, by decide,
   ((setup_writes_ids 0 ⟨5, 0⟩ ⟨9, 0⟩ initState).2.2 1 (by decide)).1⟩

/-- C10: the configuration routine is deterministic in the capability values:
for the same channel index C and any events and tasks whose `id()` agree, the
effect traces of `setup` — target registers and written values — are identical,
and so are the resulting hardware states; the trace depends only on C and the
two ids, never on the rest of the event or task value. -/
theorem setup_depends_only_on_ids (C : Nat) (e1 e2 : EtmEvent) (t1 t2 : EtmTask)
    (he : e1.id = e2.id) (ht : t1.id = t2.id) :
    setupEffects C e1 t1 = setupEffects C e2 t2 ∧
    ∀ s, setup C e1 t1 s = setup C e2 t2 s := by
  have h : setupEffects C e1 t1 = setupEffects C e2 t2 := by
    simp [setupEffects, he, ht]
  exact ⟨h, fun s => by simp [setup, h]⟩

theorem setup_depends_only_on_ids_witness :
    (⟨5, 111⟩ : EtmEvent).id = (⟨5, 222⟩ : EtmEvent).id ∧
    (⟨9, 1⟩ : EtmTask).id = (⟨9, 2⟩ : EtmTask).id ∧
    setupEffects 7 ⟨5, 111⟩ ⟨9, 1⟩ = setupEffects 7 ⟨5, 222⟩ ⟨9, 2⟩ :=
  ⟨rfl, rfl, (setup_depends_only_on_ids 7 ⟨5, 111⟩ ⟨5, 222⟩ ⟨9, 1⟩ ⟨9, 2⟩ rfl rfl).1⟩

/-- C3: for every channel index C below 50, teardown of the configured-channel
guard clears exactly enable bit `C % 32` via the clear strobe register of the
bank used at configuration and then releases the usage token after that clear;
it leaves every other enable bit of that bank, the whole other bank, and every
channel's event-id and task-id register untouched. -/
theorem drop_clears_only_own_bit (C : Nat) (hC : C < 50) (s : EtmState) :
    dropEffects C = [Effect.writeEnaClr (chBank C) (1 <<< (C % 32)), Effect.releaseToken] ∧
    (enaBank (applyEffects s (dropEffects C)) (chBank C)).testBit (C % 32) = false ∧
    (∀ j, j ≠ C % 32 →
      (enaBank (applyEffects s (dropEffects C)) (chBank C)).testBit j =
        (enaBank s (chBank C)).testBit j) ∧
    enaBank (applyEffects s (dropEffects C)) (1 - chBank C) = enaBank s (1 - chBank C) ∧
    (applyEffects s (dropEffects C)).evt_id = s.evt_id ∧
    (applyEffects s (dropEffects C)).task_id = s.task_id ∧
    (applyEffects s (dropEffects C)).tokens = s.tokens - 1 := by
  by_cases h : C < 32
  · have hb : chBank C = 0 := by simp [chBank, h]
    have hm : C % 32 = C := Nat.mod_eq_of_lt h
    rw [drop_state_low C s h, hb, hm]
    refine ⟨by simp [dropEffects, disable_channel, h], ?_, ?_, rfl, rfl, rfl, rfl⟩
    · rw [show enaBank { s with ena0 := strobeClear s.ena0 (1 <<< C), tokens := s.tokens - 1 } 0
            = strobeClear s.ena0 (1 <<< C) from rfl]
      rw [testBit_strobeClear, testBit_one_shiftLeft]
      simp
    · intro j hj
      rw [show enaBank { s with ena0 := strobeClear s.ena0 (1 <<< C), tokens := s.tokens - 1 } 0
            = strobeClear s.ena0 (1 <<< C) from rfl]
      rw [show enaBank s 0 = s.ena0 from rfl]
      rw [testBit_strobeClear, testBit_one_shiftLeft,
        decide_eq_false (fun hCj : C = j => hj hCj.symm)]
      simp
  · have hb : chBank C = 1 := by simp [chBank, h]
    have hm : C % 32 = C - 32 := by omega
    rw [drop_state_high C s h, hb, hm]
    refine ⟨by simp [dropEffects, disable_channel, h], ?_, ?_, rfl, rfl, rfl, rfl⟩
    · rw [show enaBank { s with ena1 := strobeClear s.ena1 (1 <<< (C - 32)), tokens := s.tokens - 1 } 1
            = strobeClear s.ena1 (1 <<< (C - 32)) from rfl]
      rw [testBit_strobeClear, testBit_one_shiftLeft]
      simp
    · intro j hj
      rw [show enaBank { s with ena1 := strobeClear s.ena1 (1 <<< (C - 32)), tokens := s.tokens - 1 } 1
            = strobeClear s.ena1 (1 <<< (C - 32)) from rfl]
      rw [show enaBank s 1 = s.ena1 from rfl]
      rw [testBit_strobeClear, testBit_one_shiftLeft,
        decide_eq_false (fun hCj : C - 32 = j => hj hCj.symm)]
      simp

theorem drop_clears_only_own_bit_witness :
    (0 : Nat) < 50 ∧
    (enaBank (applyEffects { initState with ena0 := 7 } (dropEffects 0)) (chBank 0)).testBit
      (0 % 32) = false ∧
    (applyEffects { initState with ena0 := 7 } (dropEffects 0)).evt_id =
      ({ initState with ena0 := 7 } : EtmState).evt_id :=
  ⟨by decide, (drop_clears_only_own_bit 0 (by decide) { initState with ena0 := 7 }).2.1,
   (drop_clears_only_own_bit 0 (by decide) { initState with ena0 := 7 }).2.2.2.2.1⟩

/-- C5: `Etm::new` consumes the peripheral handle and yields exactly one
unconfigured channel field per hardware index in [0, 49] — the channel index
list is exactly 0,...,49 in order, with no duplicate and no missing index, and
N = 50; construction is a total function with no error path. -/
theorem etm_new_channels :
    etmNew.channels = List.range 50 ∧
    etmNew.channels.Nodup ∧
    etmNew.channels.length = 50 := by
  refine ⟨by decide, by decide, by decide⟩

/-- C6: concrete scenarios. Configuring channel 0 with event id 5 and task id 9
from the reset state gives low-bank enable bit 0 = 1, channel-0 event-id
register = 5 and task-id register = 9; releasing it gives low-bank bit 0 = 0.
Configuring channel 32 sets high-bank bit 0 (offset 32 - 32) and leaves the
low-bank enable bitmap of any starting state entirely unchanged. -/
theorem concrete_scenarios :
    (setup 0 ⟨5, 0⟩ ⟨9, 0⟩ initState).ena0.testBit 0 = true ∧
    (setup 0 ⟨5, 0⟩ ⟨9, 0⟩ initState).evt_id 0 = 5 ∧
    (setup 0 ⟨5, 0⟩ ⟨9, 0⟩ initState).task_id 0 = 9 ∧
    (applyEffects (setup 0 ⟨5, 0⟩ ⟨9, 0⟩ initState) (dropEffects 0)).ena0.testBit 0 = false ∧
    (setup 32 ⟨5, 0⟩ ⟨9, 0⟩ initState).ena1.testBit (32 - 32) = true ∧
    ∀ (event : EtmEvent) (task : EtmTask) (s : EtmState),
      (setup 32 event task s).ena0 = s.ena0 := by
  refine ⟨by decide, by decide, by decide, by decide, by decide, ?_⟩
  intro event task s
  exact setup_ena0_high 32 event task s (by omega)

/-- C7: at most one live configured-channel guard can exist per index. In the
move semantics of the API — `setup` consumes the `EtmChannel` value, nothing
duplicates one or recreates one for a consumed index — every operation sequence
reachable from the state after `Etm::new` keeps the owned channel values and the
live guards disjoint, so an index whose guard is live has no channel value left
and configuring it again is impossible. -/
theorem configured_channel_exclusive (ops : List Op) (s : OwnState)
    (h : runOps initOwn ops = some s) (i : Fin 50) (hi : i ∈ s.configured) :
    i ∉ s.unconfigured ∧ applyOp s (Op.configure i) = none := by
  have hd : Disjoint s.unconfigured s.configured :=
    runOps_disjoint ops initOwn s (by simp [initOwn]) h
  have hni : i ∉ s.unconfigured := fun hmem => (Finset.disjoint_left.mp hd hmem) hi
  exact ⟨hni, by simp [applyOp, hni]⟩

theorem configured_channel_exclusive_witness :
    runOps initOwn [Op.configure 0] =
      some ⟨Finset.univ.erase 0, insert 0 ∅⟩ ∧
    (0 : Fin 50) ∈ (⟨Finset.univ.erase 0, insert 0 ∅⟩ : OwnState).configured ∧
    applyOp ⟨Finset.univ.erase 0, insert 0 ∅⟩ (Op.configure 0) = none :=
  ⟨by decide, by decide,
   (configured_channel_exclusive [Op.configure 0] ⟨Finset.univ.erase 0, insert 0 ∅⟩
     (by decide) 0 (by decide)).2⟩

/-- C8: `Etm::new` performs no hardware register write and acquires no
peripheral-usage token: its effect trace is empty, so after it runs every
enable bit, event-id field, task-id field and the token count hold exactly the
values they held before. -/
theorem etm_new_no_effects (s : EtmState) :
    etmNewEffects = [] ∧
    applyEffects s etmNewEffects = s ∧
    (applyEffects s etmNewEffects).tokens = s.tokens :=
  ⟨rfl, rfl, rfl⟩

/-- C9: the id writes in `setup` are read-modify-write operations: every bit of
channel C's event-id and task-id registers outside the 8-bit id fields keeps
its prior value. -/
theorem setup_id_writes_rmw (C : Nat) (event : EtmEvent) (task : EtmTask)
    (s : EtmState) (j : Nat) (hj : 8 ≤ j) :
    ((setup C event task s).evt_id C).testBit j = (s.evt_id C).testBit j ∧
    ((setup C event task s).task_id C).testBit j = (s.task_id C).testBit j := by
  constructor
  · rw [setup_evt_id, Function.update_same, testBit_setField8_high _ _ _ hj]
  · rw [setup_task_id, Function.update_same, testBit_setField8_high _ _ _ hj]

theorem setup_id_writes_rmw_witness :
    (8 : Nat) ≤ 8 ∧
    ((setup 0 ⟨5, 0⟩ ⟨9, 0⟩ { initState with evt_id := fun _ => 3840 }).evt_id 0).testBit 8 =
      (({ initState with evt_id := fun _ => 3840 } : EtmState).evt_id 0).testBit 8 :=
  ⟨by decide,
   (setup_id_writes_rmw 0 ⟨5, 0⟩ ⟨9, 0⟩ { initState with evt_id := fun _ => 3840 } 8
     (by decide)).1⟩

end Etm
